import Mathlib

/-! Crowdy backend: request handlers over a crowdfunding contract.

A shallow embedding of `src/backend/index.js`.  Every Express handler is a
function from the contract (its read methods, its transaction methods and its
event interface) and the parsed request body to the HTTP response together
with the ordered list of contract interactions the handler performed.

Modelling conventions.
* A rejected promise or a thrown `Error` is `Except.error msg`, where `msg` is
  the `message` of the error; the `try`/`catch` of each handler turns it into
  the 500 response.
* `bigint` results of the contract and the loop counter of the listing are
  natural numbers; the listing assumes a campaign count that a JavaScript
  number holds exactly (below `2^53`), so `Number(totalCampaigns)` is the
  count itself.
* JSON numbers of a request body are integers.
-/

namespace Crowdy

/-! ## Values of a request body -/

/-- A JavaScript value read from a parsed JSON request body. `undefined` is
what destructuring yields for a key the body does not have; `object` stands
for any object or array, named by its JSON text. -/
inductive JsValue where
  | undefined
  | null
  | bool (b : Bool)
  | num (n : Int)
  | str (s : String)
  | object (json : String)
  deriving DecidableEq, Repr

/-- JavaScript truthiness (`!!v`): `undefined`, `null`, `false`, `0` and the
empty string are falsy, everything else is truthy. -/
def JsValue.truthy : JsValue → Bool
  | .undefined => false
  | .null => false
  | .bool b => b
  | .num n => n != 0
  | .str s => s != ""
  | .object _ => true

/-- The parsed body `req.body`: the own properties of the JSON object. -/
abbrev Body := List (String × JsValue)

/-- Property read `req.body.key`, as done by the destructuring
`const { key } = req.body`: `undefined` when the key is absent. -/
def Body.get (body : Body) (key : String) : JsValue :=
  match body.lookup key with
  | some v => v
  | none => .undefined

/-- The constant `ethers.ZeroAddress`, the native-currency sentinel. -/
def ZeroAddress : String := "0x0000000000000000000000000000000000000000"

/-! ## The contract -/

/-- One entry of `receipt.logs`. -/
structure Log where
  address : String
  topics : List String
  data : String
  deriving DecidableEq, Repr

/-- The receipt `await tx.wait()` resolves to. -/
structure Receipt where
  logs : List Log
  blockNumber : Nat
  gasUsed : Nat
  deriving DecidableEq, Repr

/-- The transaction response a contract method resolves to: its `hash`, and
what `tx.wait()` does (resolve to a receipt, or reject with a message). -/
structure Tx where
  hash : String
  wait : Except String Receipt

/-- The record `contract.campaigns(i)` resolves to. -/
structure CampaignData where
  owner : String
  goalAmount : Nat
  deadline : Nat
  title : String
  description : String
  withdrawn : Bool
  deriving DecidableEq, Repr

/-- The three things `contract.interface.parseLog(log)` can do: throw, return
`null`, or return a description with the event `name` and `args.id` (absent
when the event has no argument of that name). -/
inductive ParseResult where
  | throws (msg : String)
  | null
  | parsed (name : String) (id : Option Nat)
  deriving DecidableEq, Repr

/-- The contract as the handlers use it: `contract` (reads through the
provider, and the event interface) and `getContractWithSigner()` (the
transaction methods). Each method either resolves or rejects with a message. -/
structure Ledger where
  totalCampaigns : Except String Nat
  campaigns : Nat → Except String CampaignData
  getTotalRaised : Nat → String → Except String Nat
  createCampaign : JsValue → JsValue → JsValue → JsValue → Except String Tx
  contributeToken : JsValue → JsValue → JsValue → Except String Tx
  contributeETH : JsValue → JsValue → Except String Tx
  refund : JsValue → JsValue → Except String Tx
  withdraw : JsValue → Except String Tx
  parseLog : Log → ParseResult

/-- A contract interaction: a method call with its arguments, or the
confirmation wait of the transaction with the given hash. For
`contributeETH` the second component is the `value` of the overrides object,
not a method argument. -/
inductive Call where
  | totalCampaigns
  | campaigns (i : Nat)
  | getTotalRaised (i : Nat) (token : String)
  | createCampaign (goalAmount deadline title description : JsValue)
  | contributeToken (campaignId token amount : JsValue)
  | contributeETH (campaignId : JsValue) (value : JsValue)
  | refund (campaignId tokenAddress : JsValue)
  | withdraw (campaignId : JsValue)
  | wait (hash : String)
  deriving DecidableEq, Repr

/-- An interaction the handler performed, with the message of its failure if
it failed. -/
structure Interaction where
  call : Call
  failure : Option String
  deriving DecidableEq, Repr

/-! ## Responses -/

/-- One element of the `campaigns` array of the listing. -/
structure CampaignView where
  id : Nat
  owner : String
  goalAmount : String
  deadline : String
  title : String
  description : String
  raisedAmount : String
  withdrawn : Bool
  deriving DecidableEq, Repr

/-- The JSON bodies the handlers send. -/
inductive ResBody where
  /-- The body `{ campaigns, total }`. -/
  | campaigns (campaigns : List CampaignView) (total : Nat)
  /-- The body `{ success: true, transactionHash, campaignId, receipt }`. -/
  | created (transactionHash : String) (campaignId : Option String)
      (blockNumber : Nat) (gasUsed : String)
  /-- The body `{ success: true, transactionHash, receipt }`. -/
  | written (transactionHash : String) (blockNumber : Nat) (gasUsed : String)
  /-- The body `{ error }`. -/
  | error (error : String)
  deriving DecidableEq, Repr

/-- An HTTP response: status code and JSON body. -/
structure Response where
  status : Nat
  body : ResBody
  deriving DecidableEq, Repr

/-- What running a handler yields: the response sent, and the contract
interactions performed, in order. -/
structure Outcome where
  response : Response
  trace : List Interaction
  deriving DecidableEq, Repr

/-! ## Handlers -/

/-- The element pushed onto `campaigns` for index `i`; the `bigint` fields are
rendered by `toString()`, in decimal. -/
def campaignView (i : Nat) (campaignData : CampaignData) (ethRaised : Nat) :
    CampaignView where
  id := i
  owner := campaignData.owner
  goalAmount := toString campaignData.goalAmount
  deadline := toString campaignData.deadline
  title := campaignData.title
  description := campaignData.description
  raisedAmount := toString ethRaised
  withdrawn := campaignData.withdrawn

/-- The loop `for (let i = 0; i < Number(totalCampaigns); i++)` of the
listing, entered at counter `i` with `remaining = Number(totalCampaigns) - i`
iterations to go (the loop test `i < Number(totalCampaigns)` is
`remaining ≠ 0`), the array `campaigns` built so far and the interactions
performed so far. A failing read leaves the loop with its message. -/
def listLoop (L : Ledger) :
    Nat → Nat → List CampaignView → List Interaction →
      Except String (List CampaignView) × List Interaction
  | 0, _, campaigns, trace => (.ok campaigns, trace)
  | remaining + 1, i, campaigns, trace =>
    match L.campaigns i with
    | .error e => (.error e, trace ++ [⟨.campaigns i, some e⟩])
    | .ok campaignData =>
      match L.getTotalRaised i ZeroAddress with
      | .error e =>
        (.error e,
          trace ++ [⟨.campaigns i, none⟩, ⟨.getTotalRaised i ZeroAddress, some e⟩])
      | .ok ethRaised =>
        listLoop L remaining (i + 1)
          (campaigns ++ [campaignView i campaignData ethRaised])
          (trace ++ [⟨.campaigns i, none⟩, ⟨.getTotalRaised i ZeroAddress, none⟩])

/-- The handler `app.get('/campaigns')`. -/
def getCampaigns (L : Ledger) : Outcome :=
  match L.totalCampaigns with
  | .error e => ⟨⟨500, .error e⟩, [⟨.totalCampaigns, some e⟩]⟩
  | .ok totalCampaigns =>
    match listLoop L totalCampaigns 0 [] [⟨.totalCampaigns, none⟩] with
    | (.error e, trace) => ⟨⟨500, .error e⟩, trace⟩
    | (.ok campaigns, trace) => ⟨⟨200, .campaigns campaigns campaigns.length⟩, trace⟩

/-- The callback given to `receipt.logs.find`: the log parses, without
throwing, to a non-null description named `CampaignCreated`. -/
def isCampaignCreated (L : Ledger) (log : Log) : Bool :=
  match L.parseLog log with
  | .throws _ => false
  | .null => false
  | .parsed name _ => name == "CampaignCreated"

/-- The message of the `TypeError` raised by `parsed.args.id.toString()` when
`parsed.args.id` is `undefined`. -/
def undefinedIdMessage : String :=
  "Cannot read properties of undefined (reading \x27toString\x27)"

/-- The message of the `TypeError` raised by `parsed.args` when `parsed` is
`null`. -/
def nullParsedMessage : String :=
  "Cannot read properties of null (reading \x27args\x27)"

/-- The handler `app.post('/campaigns')`. -/
def postCampaigns (L : Ledger) (body : Body) : Outcome :=
  let goalAmount := body.get "goalAmount"
  let deadline := body.get "deadline"
  let title := body.get "title"
  let description := body.get "description"
  if !goalAmount.truthy || !deadline.truthy || !title.truthy || !description.truthy then
    ⟨⟨400, .error "Missing required fields: goalAmount, deadline, title, description"⟩, []⟩
  else
    let call := Call.createCampaign goalAmount deadline title description
    match L.createCampaign goalAmount deadline title description with
    | .error e => ⟨⟨500, .error e⟩, [⟨call, some e⟩]⟩
    | .ok tx =>
      match tx.wait with
      | .error e => ⟨⟨500, .error e⟩, [⟨call, none⟩, ⟨.wait tx.hash, some e⟩]⟩
      | .ok receipt =>
        let trace : List Interaction := [⟨call, none⟩, ⟨.wait tx.hash, none⟩]
        let reply (campaignId : Option String) : Outcome :=
          ⟨⟨200, .created tx.hash campaignId receipt.blockNumber (toString receipt.gasUsed)⟩,
            trace⟩
        match receipt.logs.find? (isCampaignCreated L) with
        | none => reply none
        | some event =>
          match L.parseLog event with
          | .throws e => ⟨⟨500, .error e⟩, trace⟩
          | .null => ⟨⟨500, .error nullParsedMessage⟩, trace⟩
          | .parsed _ none => ⟨⟨500, .error undefinedIdMessage⟩, trace⟩
          | .parsed _ (some id) => reply (some (toString id))

/-- The handler `app.post('/contribute')`. -/
def postContribute (L : Ledger) (body : Body) : Outcome :=
  let campaignId := body.get "campaignId"
  let amount := body.get "amount"
  let token := body.get "token"
  if campaignId = .undefined ∨ campaignId = .null ∨ amount = .undefined then
    ⟨⟨400, .error "Missing required fields: campaignId, amount"⟩, []⟩
  else
    let (call, sent) :=
      if token.truthy then
        (Call.contributeToken campaignId token amount,
          L.contributeToken campaignId token amount)
      else
        (Call.contributeETH campaignId amount, L.contributeETH campaignId amount)
    match sent with
    | .error e => ⟨⟨500, .error e⟩, [⟨call, some e⟩]⟩
    | .ok tx =>
      match tx.wait with
      | .error e => ⟨⟨500, .error e⟩, [⟨call, none⟩, ⟨.wait tx.hash, some e⟩]⟩
      | .ok receipt =>
        ⟨⟨200, .written tx.hash receipt.blockNumber (toString receipt.gasUsed)⟩,
          [⟨call, none⟩, ⟨.wait tx.hash, none⟩]⟩

/-- The handler `app.post('/refund')`. -/
def postRefund (L : Ledger) (body : Body) : Outcome :=
  let campaignId := body.get "campaignId"
  let token := body.get "token"
  if campaignId = .undefined ∨ campaignId = .null then
    ⟨⟨400, .error "Missing required field: campaignId"⟩, []⟩
  else
    let tokenAddress := if token.truthy then token else .str ZeroAddress
    let call := Call.refund campaignId tokenAddress
    match L.refund campaignId tokenAddress with
    | .error e => ⟨⟨500, .error e⟩, [⟨call, some e⟩]⟩
    | .ok tx =>
      match tx.wait with
      | .error e => ⟨⟨500, .error e⟩, [⟨call, none⟩, ⟨.wait tx.hash, some e⟩]⟩
      | .ok receipt =>
        ⟨⟨200, .written tx.hash receipt.blockNumber (toString receipt.gasUsed)⟩,
          [⟨call, none⟩, ⟨.wait tx.hash, none⟩]⟩

/-- The handler `app.post('/withdraw')`. -/
def postWithdraw (L : Ledger) (body : Body) : Outcome :=
  let campaignId := body.get "campaignId"
  if campaignId = .undefined ∨ campaignId = .null then
    ⟨⟨400, .error "Missing required field: campaignId"⟩, []⟩
  else
    let call := Call.withdraw campaignId
    match L.withdraw campaignId with
    | .error e => ⟨⟨500, .error e⟩, [⟨call, some e⟩]⟩
    | .ok tx =>
      match tx.wait with
      | .error e => ⟨⟨500, .error e⟩, [⟨call, none⟩, ⟨.wait tx.hash, some e⟩]⟩
      | .ok receipt =>
        ⟨⟨200, .written tx.hash receipt.blockNumber (toString receipt.gasUsed)⟩,
          [⟨call, none⟩, ⟨.wait tx.hash, none⟩]⟩

/-- A transaction method, as opposed to a read or a confirmation wait. -/
def Call.isTransaction : Call → Bool
  | .createCampaign _ _ _ _ => true
  | .contributeToken _ _ _ => true
  | .contributeETH _ _ => true
  | .refund _ _ => true
  | .withdraw _ => true
  | _ => false

/-- The transactions a handler run submitted, in order. -/
def Outcome.transactions (o : Outcome) : List Call :=
  (o.trace.map (·.call)).filter Call.isTransaction

/-- The two reads the loop performs for index `j` when both succeed. -/
def readsOf (j : Nat) : List Interaction :=
  [⟨.campaigns j, none⟩, ⟨.getTotalRaised j ZeroAddress, none⟩]

/-- The claim's reading of a missing field: the value is `undefined`, `null`,
the empty string, `0` or `false`. -/
def JsValue.missingOrFalsy (v : JsValue) : Prop :=
  v = .undefined ∨ v = .null ∨ v = .str "" ∨ v = .num 0 ∨ v = .bool false

/-! ## Sample contracts and bodies -/

/-- A receipt without logs. -/
def sampleReceipt : Receipt := ⟨[], 7, 21000⟩

/-- A transaction that is confirmed with `sampleReceipt`. -/
def sampleTx : Tx := ⟨"0xabc", .ok sampleReceipt⟩

/-- A contract holding no campaign on which every call succeeds. -/
def okLedger : Ledger where
  totalCampaigns := .ok 0
  campaigns := fun _ => .ok ⟨"0xowner", 1000, 1999999999, "T", "D", false⟩
  getTotalRaised := fun _ _ => .ok 0
  createCampaign := fun _ _ _ _ => .ok sampleTx
  contributeToken := fun _ _ _ => .ok sampleTx
  contributeETH := fun _ _ => .ok sampleTx
  refund := fun _ _ => .ok sampleTx
  withdraw := fun _ => .ok sampleTx
  parseLog := fun _ => .null

/-- A complete creation body. -/
def createBody : Body :=
  [("goalAmount", .str "1000"), ("deadline", .str "1999999999"), ("title", .str "T"),
    ("description", .str "D")]

/-- A creation body without `description`. -/
def noDescriptionBody : Body :=
  [("goalAmount", .str "1000"), ("deadline", .str "1999999999"), ("title", .str "T")]

/-- Four logs, told apart by their data. -/
def sampleLogs : List Log :=
  [⟨"0xc", [], "0"⟩, ⟨"0xc", [], "1"⟩, ⟨"0xc", [], "2"⟩, ⟨"0xc", [], "3"⟩]

/-- A transaction confirmed with the four sample logs. -/
def loggedTx : Tx := ⟨"0xdef", .ok ⟨sampleLogs, 9, 50000⟩⟩

/-- A contract whose creation is confirmed with the four sample logs: the
first one does not parse, the second is a `Transfer`, the third and the fourth
are `CampaignCreated` with ids 4 and 5. -/
def eventLedger : Ledger :=
  { okLedger with
    createCampaign := fun _ _ _ _ => .ok loggedTx
    parseLog := fun log =>
      if log.data = "0" then .throws "no matching event"
      else if log.data = "1" then .parsed "Transfer" none
      else if log.data = "2" then .parsed "CampaignCreated" (some 4)
      else .parsed "CampaignCreated" (some 5) }

/-- The record of the sample campaign number `i`. -/
def sampleData (i : Nat) : CampaignData :=
  ⟨"0xowner" ++ toString i, 1000 + i, 1999999990 + i, "T" ++ toString i, "D" ++ toString i,
    i == 1⟩

/-- A contract holding three campaigns on which every read succeeds. -/
def threeLedger : Ledger :=
  { okLedger with
    totalCampaigns := .ok 3
    campaigns := fun i => .ok (sampleData i)
    getTotalRaised := fun i token =>
      if token = ZeroAddress then .ok (10 * i + 5) else .error "unknown token" }

/-- A contract holding three campaigns whose raised total of campaign 1
cannot be read. -/
def brokenLedger : Ledger :=
  { threeLedger with
    getTotalRaised := fun i _ => if i = 1 then .error "call revert exception" else .ok 0 }

/-- The refund body `{ campaignId: 0 }`. -/
def refundBody : Body := [("campaignId", .num 0)]

/-- A refund body naming a token. -/
def tokenRefundBody : Body := [("campaignId", .num 0), ("token", .str "0xT")]

/-- A native contribution body. -/
def nativeBody : Body := [("campaignId", .num 0), ("amount", .num 5)]

/-- A contract that submits the withdrawal but whose confirmation fails. -/
def revertingLedger : Ledger :=
  { okLedger with
    withdraw := fun _ => .ok ⟨"0x123", .error "transaction execution reverted"⟩ }

/-- Three logs, told apart by their data. -/
def noiseLogs : List Log :=
  [⟨"0xc", [], "0"⟩, ⟨"0xd", [], "1"⟩, ⟨"0xc", [], "2"⟩]

/-- A transaction confirmed with the three noise logs. -/
def noiseTx : Tx := ⟨"0x456", .ok ⟨noiseLogs, 11, 60000⟩⟩

/-- A contract whose creation is confirmed with the three noise logs, none of
them a `CampaignCreated`: parsing the first one throws, the second one parses
to `null`, the third one is a `Transfer`. -/
def noiseLedger : Ledger :=
  { okLedger with
    createCampaign := fun _ _ _ _ => .ok noiseTx
    parseLog := fun log =>
      if log.data = "0" then .throws "no matching event"
      else if log.data = "1" then .null
      else .parsed "Transfer" none }

/-- A contribution body whose `amount` is `null`. -/
def nullAmountBody : Body := [("campaignId", .num 1), ("amount", .null)]

/-- A token contribution body. -/
def tokenBody : Body := [("campaignId", .num 0), ("amount", .num 5), ("token", .str "0xT")]

/-! ## Contribute -/

/-- The contribute handler answers 400 exactly when `campaignId` is
`undefined` or `null` or `amount` is `undefined`, and then without touching
the contract. -/
theorem postContribute_status_400_iff (L : Ledger) (body : Body) :
    (postContribute L body).response.status = 400 ↔
      (body.get "campaignId" = .undefined ∨ body.get "campaignId" = .null ∨
        body.get "amount" = .undefined) := by
  unfold postContribute
  by_cases h : body.get "campaignId" = .undefined ∨ body.get "campaignId" = .null ∨
      body.get "amount" = .undefined
  · simp [h]
  · simp only [h, if_false, iff_false]
    split
    · simp
    · split <;> simp

/-- Past validation the contribute handler submits exactly one transaction:
the token method when `token` is truthy, the native method otherwise. -/
theorem postContribute_transactions (L : Ledger) (body : Body)
    (h : ¬ (body.get "campaignId" = .undefined ∨ body.get "campaignId" = .null ∨
        body.get "amount" = .undefined)) :
    (postContribute L body).transactions =
      [if (body.get "token").truthy then
          Call.contributeToken (body.get "campaignId") (body.get "token") (body.get "amount")
        else Call.contributeETH (body.get "campaignId") (body.get "amount")] := by
  unfold postContribute Outcome.transactions
  simp only [h, if_false]
  by_cases ht : (body.get "token").truthy = true
  · simp only [ht, if_true]
    split
    · simp [Call.isTransaction]
    · split <;> simp [Call.isTransaction]
  · simp only [ht, if_false]
    split
    · simp [Call.isTransaction]
    · split <;> simp [Call.isTransaction]

/-- C1 (code evaluated at the failing input): with `campaignId` 1 and `amount`
`null` the contribute handler does not answer 400 on any contract; it goes on
to call `contributeETH(1, { value: null })`. -/
theorem postContribute_null_amount_not_rejected (L : Ledger) :
    (postContribute L nullAmountBody).response.status ≠ 400 ∧
      (postContribute L nullAmountBody).transactions = [.contributeETH (.num 1) .null] := by
  have hv : ¬ (nullAmountBody.get "campaignId" = .undefined ∨
      nullAmountBody.get "campaignId" = .null ∨ nullAmountBody.get "amount" = .undefined) := by
    decide
  refine ⟨fun h => hv ((postContribute_status_400_iff L _).1 h), ?_⟩
  rw [postContribute_transactions L _ hv]
  rfl

/-- C2: past validation, a non-empty string `token` makes the one submitted
transaction `contributeToken(campaignId, token, amount)`, with `amount` an
argument and nothing attached; an absent `token` makes it
`contributeETH(campaignId)` with `amount` as the attached value. -/
theorem postContribute_token_branching (L : Ledger) (body : Body)
    (hid : body.get "campaignId" ≠ .undefined ∧ body.get "campaignId" ≠ .null)
    (hamount : body.get "amount" ≠ .undefined) :
    (∀ s : String, s ≠ "" → body.get "token" = .str s →
      (postContribute L body).transactions =
        [.contributeToken (body.get "campaignId") (.str s) (body.get "amount")]) ∧
    (body.get "token" = .undefined →
      (postContribute L body).transactions =
        [.contributeETH (body.get "campaignId") (body.get "amount")]) := by
  have hv : ¬ (body.get "campaignId" = .undefined ∨ body.get "campaignId" = .null ∨
      body.get "amount" = .undefined) := by
    rintro (h | h | h)
    · exact hid.1 h
    · exact hid.2 h
    · exact hamount h
  rw [postContribute_transactions L body hv]
  constructor
  · intro s hs ht
    simp [ht, JsValue.truthy, hs]
  · intro ht
    simp [ht, JsValue.truthy]

/-- Witness of C2: a body with token `"0xT"` submits `contributeToken(0, "0xT", 5)`,
and the body without token submits `contributeETH(0, { value: 5 })`. -/
theorem postContribute_token_branching_witness :
    (postContribute okLedger tokenBody).transactions =
        [.contributeToken (.num 0) (.str "0xT") (.num 5)] ∧
      (postContribute okLedger nativeBody).transactions =
        [.contributeETH (.num 0) (.num 5)] :=
  ⟨(postContribute_token_branching okLedger tokenBody (by decide) (by decide)).1 "0xT"
      (by decide) (by decide),
    (postContribute_token_branching okLedger nativeBody (by decide) (by decide)).2
      (by decide)⟩

/-! ## Create -/

/-- A value is falsy exactly when it is one of `undefined`, `null`, `""`, `0`,
`false`. -/
theorem JsValue.truthy_eq_false_iff (v : JsValue) :
    v.truthy = false ↔ v.missingOrFalsy := by
  cases v <;> simp [JsValue.truthy, JsValue.missingOrFalsy]

/-- The create handler answers 400 exactly when one of the four fields is
falsy. -/
theorem postCampaigns_status_400_iff (L : Ledger) (body : Body) :
    (postCampaigns L body).response.status = 400 ↔
      ((body.get "goalAmount").truthy = false ∨ (body.get "deadline").truthy = false ∨
        (body.get "title").truthy = false ∨ (body.get "description").truthy = false) := by
  unfold postCampaigns
  by_cases h : (body.get "goalAmount").truthy = false ∨ (body.get "deadline").truthy = false ∨
      (body.get "title").truthy = false ∨ (body.get "description").truthy = false
  · simp only [h, iff_true]
    rcases h with h | h | h | h <;> simp [h]
  · simp only [h, iff_false]
    simp only [not_or, Bool.not_eq_false] at h
    simp only [h.1, h.2.1, h.2.2.1, h.2.2.2]
    simp only [Bool.not_true, Bool.or_self, Bool.false_eq_true, if_false]
    split
    · simp
    · split
      · simp
      · split
        · simp
        · split <;> simp

/-- The `find` callback holds of a log exactly when the log parses to an event
named `CampaignCreated`. -/
theorem isCampaignCreated_iff (L : Ledger) (log : Log) :
    isCampaignCreated L log = true ↔ ∃ id, L.parseLog log = .parsed "CampaignCreated" id := by
  unfold isCampaignCreated
  cases h : L.parseLog log <;> simp

/-- C3: when one of `goalAmount`, `deadline`, `title`, `description` is
missing or falsy the create handler answers 400 and performs no contract
interaction at all; when all four are truthy it does not answer 400 and
submits exactly the transaction
`createCampaign(goalAmount, deadline, title, description)`. -/
theorem postCampaigns_validation (L : Ledger) (body : Body) :
    (((body.get "goalAmount").missingOrFalsy ∨ (body.get "deadline").missingOrFalsy ∨
        (body.get "title").missingOrFalsy ∨ (body.get "description").missingOrFalsy) →
      (postCampaigns L body).response.status = 400 ∧ (postCampaigns L body).trace = []) ∧
    (((body.get "goalAmount").truthy = true ∧ (body.get "deadline").truthy = true ∧
        (body.get "title").truthy = true ∧ (body.get "description").truthy = true) →
      (postCampaigns L body).response.status ≠ 400 ∧
        (postCampaigns L body).transactions =
          [.createCampaign (body.get "goalAmount") (body.get "deadline") (body.get "title")
            (body.get "description")]) := by
  constructor
  · intro h
    simp only [← JsValue.truthy_eq_false_iff] at h
    refine ⟨(postCampaigns_status_400_iff L body).2 h, ?_⟩
    unfold postCampaigns
    rcases h with h | h | h | h <;> simp [h]
  · intro h
    refine ⟨fun h400 => ?_, ?_⟩
    · have := (postCampaigns_status_400_iff L body).1 h400
      simp [h.1, h.2.1, h.2.2.1, h.2.2.2] at this
    · unfold postCampaigns Outcome.transactions
      simp only [h.1, h.2.1, h.2.2.1, h.2.2.2]
      simp only [Bool.not_true, Bool.or_self, Bool.false_eq_true, if_false]
      split
      · simp [Call.isTransaction]
      · split
        · simp [Call.isTransaction]
        · split
          · simp [Call.isTransaction]
          · split <;> simp [Call.isTransaction]

/-- Witness of C3: a body without `description` is answered 400 with no
contract interaction, and the complete body submits one `createCampaign`. -/
theorem postCampaigns_validation_witness :
    ((postCampaigns okLedger noDescriptionBody).response.status = 400 ∧
      (postCampaigns okLedger noDescriptionBody).trace = []) ∧
    ((postCampaigns okLedger createBody).response.status ≠ 400 ∧
      (postCampaigns okLedger createBody).transactions =
        [.createCampaign (.str "1000") (.str "1999999999") (.str "T") (.str "D")]) :=
  ⟨(postCampaigns_validation okLedger noDescriptionBody).1
      (Or.inr (Or.inr (Or.inr (Or.inl rfl)))),
    (postCampaigns_validation okLedger createBody).2 (by decide)⟩

/-- C4: a valid creation whose transaction is confirmed with a receipt none of
whose logs parses to a `CampaignCreated` event (they throw, parse to `null`
or to another event, or there is no log) is answered 200 with
`campaignId: null`, the transaction hash, the block number and the gas used. -/
theorem postCampaigns_event_absent (L : Ledger) (body : Body) (tx : Tx) (receipt : Receipt)
    (hvalid : (body.get "goalAmount").truthy = true ∧ (body.get "deadline").truthy = true ∧
      (body.get "title").truthy = true ∧ (body.get "description").truthy = true)
    (hsend : L.createCampaign (body.get "goalAmount") (body.get "deadline") (body.get "title")
      (body.get "description") = .ok tx)
    (hwait : tx.wait = .ok receipt)
    (hlogs : ∀ log ∈ receipt.logs, ∀ id, L.parseLog log ≠ .parsed "CampaignCreated" id) :
    (postCampaigns L body).response =
      ⟨200, .created tx.hash none receipt.blockNumber (toString receipt.gasUsed)⟩ := by
  have hfind : receipt.logs.find? (isCampaignCreated L) = none := by
    rw [List.find?_eq_none]
    intro log hmem hp
    obtain ⟨id, hid⟩ := (isCampaignCreated_iff L log).1 hp
    exact hlogs log hmem id hid
  unfold postCampaigns
  simp only [hvalid.1, hvalid.2.1, hvalid.2.2.1, hvalid.2.2.2]
  simp [hsend, hwait, hfind]

/-- Witness of C4: a receipt whose three logs throw, parse to `null` and parse
to a `Transfer` is answered 200 with `campaignId: null`, and so is a receipt
without logs. -/
theorem postCampaigns_event_absent_witness :
    (postCampaigns noiseLedger createBody).response =
        ⟨200, .created "0x456" none 11 "60000"⟩ ∧
      (postCampaigns okLedger createBody).response =
        ⟨200, .created "0xabc" none 7 "21000"⟩ :=
  ⟨postCampaigns_event_absent noiseLedger createBody noiseTx ⟨noiseLogs, 11, 60000⟩
      (by decide) rfl rfl
      (by
        intro log hmem id
        simp only [noiseLogs, List.mem_cons, List.mem_singleton, List.not_mem_nil,
          or_false] at hmem
        rcases hmem with rfl | rfl | rfl <;> simp [noiseLedger]),
    postCampaigns_event_absent okLedger createBody sampleTx sampleReceipt (by decide) rfl rfl
      (by intro log h; cases h)⟩

/-- C5: when the receipt's logs are `before ++ log :: after`, no log of
`before` parses to a `CampaignCreated` event and `log` parses to
`CampaignCreated` with argument `id`, the response carries the decimal string
of that `id` as `campaignId`, whatever the logs of `after` are. -/
theorem postCampaigns_first_match (L : Ledger) (body : Body) (tx : Tx) (receipt : Receipt)
    (before after : List Log) (log : Log) (id : Nat)
    (hvalid : (body.get "goalAmount").truthy = true ∧ (body.get "deadline").truthy = true ∧
      (body.get "title").truthy = true ∧ (body.get "description").truthy = true)
    (hsend : L.createCampaign (body.get "goalAmount") (body.get "deadline") (body.get "title")
      (body.get "description") = .ok tx)
    (hwait : tx.wait = .ok receipt)
    (hsplit : receipt.logs = before ++ log :: after)
    (hbefore : ∀ l ∈ before, ∀ i, L.parseLog l ≠ .parsed "CampaignCreated" i)
    (hlog : L.parseLog log = .parsed "CampaignCreated" (some id)) :
    (postCampaigns L body).response =
      ⟨200, .created tx.hash (some (Nat.repr id)) receipt.blockNumber
        (toString receipt.gasUsed)⟩ := by
  have hpre : before.find? (isCampaignCreated L) = none := by
    rw [List.find?_eq_none]
    intro l hmem hp
    obtain ⟨i, hi⟩ := (isCampaignCreated_iff L l).1 hp
    exact hbefore l hmem i hi
  have hhit : isCampaignCreated L log = true := (isCampaignCreated_iff L log).2 ⟨_, hlog⟩
  have hfind : receipt.logs.find? (isCampaignCreated L) = some log := by
    rw [hsplit, List.find?_append, hpre]
    simp [List.find?_cons, hhit]
  unfold postCampaigns
  simp only [hvalid.1, hvalid.2.1, hvalid.2.2.1, hvalid.2.2.2]
  simp [hsend, hwait, hfind, hlog]
  rfl

/-- Witness of C5: of the four sample logs the third is the first
`CampaignCreated` one, so the response carries its id 4, not the 5 of the
fourth. -/
theorem postCampaigns_first_match_witness :
    (postCampaigns eventLedger createBody).response =
      ⟨200, .created "0xdef" (some "4") 9 "50000"⟩ :=
  postCampaigns_first_match eventLedger createBody loggedTx ⟨sampleLogs, 9, 50000⟩
    [⟨"0xc", [], "0"⟩, ⟨"0xc", [], "1"⟩] [⟨"0xc", [], "3"⟩] ⟨"0xc", [], "2"⟩ 4
    (by decide) rfl rfl rfl
    (by
      intro l hl i
      simp only [List.mem_cons, List.mem_singleton, List.not_mem_nil, or_false] at hl
      rcases hl with rfl | rfl <;> simp [eventLedger])
    (by decide)

/-! ## List -/

/-- When the reads of the `n` indices from `i` on succeed, the loop appends
their views in index order and performs their reads in index order. -/
theorem listLoop_ok (L : Ledger) (data : Nat → CampaignData) (raised : Nat → Nat) :
    ∀ (n i : Nat) (acc : List CampaignView) (tr : List Interaction),
      (∀ j, i ≤ j → j < i + n →
        L.campaigns j = .ok (data j) ∧ L.getTotalRaised j ZeroAddress = .ok (raised j)) →
      listLoop L n i acc tr =
        (.ok (acc ++ (List.range' i n).map fun j => campaignView j (data j) (raised j)),
          tr ++ (List.range' i n).flatMap readsOf) := by
  intro n
  induction n with
  | zero => intro i acc tr _; simp [listLoop]
  | succ n ih =>
    intro i acc tr h
    obtain ⟨hc, hr⟩ := h i (Nat.le_refl i) (by omega)
    have hrest : ∀ j, i + 1 ≤ j → j < i + 1 + n →
        L.campaigns j = .ok (data j) ∧ L.getTotalRaised j ZeroAddress = .ok (raised j) :=
      fun j h1 h2 => h j (by omega) (by omega)
    simp only [listLoop, hc, hr]
    rw [ih (i + 1) _ _ hrest]
    simp [List.range'_succ, readsOf, List.append_assoc]

/-- When the reads of the first `k` indices from `i` on succeed and a read of
index `i + k` fails with message `e`, the loop fails with `e`. -/
theorem listLoop_fail (L : Ledger) (e : String) :
    ∀ (n i : Nat) (acc : List CampaignView) (tr : List Interaction) (k : Nat),
      k < n →
      (∀ j, j < k → ∃ d r, L.campaigns (i + j) = .ok d ∧
        L.getTotalRaised (i + j) ZeroAddress = .ok r) →
      (L.campaigns (i + k) = .error e ∨
        ∃ d, L.campaigns (i + k) = .ok d ∧ L.getTotalRaised (i + k) ZeroAddress = .error e) →
      (listLoop L n i acc tr).1 = .error e := by
  intro n
  induction n with
  | zero => intro i acc tr k hk; omega
  | succ n ih =>
    intro i acc tr k hk hbefore hfail
    cases k with
    | zero =>
      rcases hfail with hc | ⟨d, hc, hr⟩
      · simp only [Nat.add_zero] at hc
        simp [listLoop, hc]
      · simp only [Nat.add_zero] at hc hr
        simp [listLoop, hc, hr]
    | succ k =>
      obtain ⟨d, r, hc, hr⟩ := hbefore 0 (Nat.succ_pos k)
      simp only [Nat.add_zero] at hc hr
      simp only [listLoop, hc, hr]
      apply ih (i + 1) _ _ k (by omega)
      · intro j hj
        have := hbefore (j + 1) (by omega)
        rwa [show i + (j + 1) = i + 1 + j by omega] at this
      · rwa [show i + (k + 1) = i + 1 + k by omega] at hfail

/-- C6: when `totalCampaigns()` returns `N` and the reads `campaigns(i)` and
`getTotalRaised(i, ZeroAddress)` succeed for every `i < N`, with results
`data i` and `raised i`, the listing is answered 200 with `total` `N` and `N`
entries in index order: entry `i` has id `i`, the owner, title, description
and withdrawn flag of `data i`, its goal amount and deadline in decimal, and
`raised i` in decimal as raised amount. The reads performed are
`totalCampaigns()` and then, index by index, those two. -/
theorem getCampaigns_ordered (L : Ledger) (N : Nat) (data : Nat → CampaignData)
    (raised : Nat → Nat)
    (htotal : L.totalCampaigns = .ok N)
    (hreads : ∀ i, i < N →
      L.campaigns i = .ok (data i) ∧ L.getTotalRaised i ZeroAddress = .ok (raised i)) :
    (getCampaigns L).response =
        ⟨200, .campaigns
          ((List.range N).map fun i =>
            { id := i
              owner := (data i).owner
              goalAmount := Nat.repr (data i).goalAmount
              deadline := Nat.repr (data i).deadline
              title := (data i).title
              description := (data i).description
              raisedAmount := Nat.repr (raised i)
              withdrawn := (data i).withdrawn })
          N⟩ ∧
      (∃ entries, (getCampaigns L).response = ⟨200, .campaigns entries N⟩ ∧
        entries.length = N ∧ entries.map (·.id) = List.range N) ∧
      (getCampaigns L).trace =
        ⟨.totalCampaigns, none⟩ ::
          (List.range N).flatMap fun i =>
            [⟨.campaigns i, none⟩,
              ⟨.getTotalRaised i "0x0000000000000000000000000000000000000000", none⟩] := by
  have hloop := listLoop_ok L data raised N 0 [] [⟨.totalCampaigns, none⟩]
    (fun j _ hj => hreads j (by omega))
  have hresp : (getCampaigns L).response =
      ⟨200, .campaigns ((List.range N).map fun i => campaignView i (data i) (raised i)) N⟩ := by
    unfold getCampaigns
    simp only [htotal, hloop]
    simp [List.range_eq_range']
  refine ⟨hresp, ⟨_, hresp, by simp, ?_⟩, ?_⟩
  · rw [List.map_map]
    have : ((fun v : CampaignView => v.id) ∘ fun i => campaignView i (data i) (raised i)) = id := by
      funext i
      rfl
    rw [this, List.map_id]
  · unfold getCampaigns
    simp only [htotal, hloop]
    simp only [List.range_eq_range', List.singleton_append]
    rfl

/-- Witness of C6: three campaigns are listed with ids 0, 1, 2, each with the
fields read for it. -/
theorem getCampaigns_ordered_witness :
    (getCampaigns threeLedger).response =
      ⟨200, .campaigns
        [⟨0, "0xowner0", "1000", "1999999990", "T0", "D0", "5", false⟩,
          ⟨1, "0xowner1", "1001", "1999999991", "T1", "D1", "15", true⟩,
          ⟨2, "0xowner2", "1002", "1999999992", "T2", "D2", "25", false⟩] 3⟩ :=
  (getCampaigns_ordered threeLedger 3 sampleData (fun i => 10 * i + 5) rfl
    (fun _ _ => ⟨rfl, rfl⟩)).1

/-- C7: when `totalCampaigns()` fails, or it returns `N` and for some `k < N`
the reads of the indices below `k` succeed and `campaigns(k)` or
`getTotalRaised(k, ZeroAddress)` fails, the listing is answered 500 with the
body `{ error }` holding the message of the failure, and nothing else. -/
theorem getCampaigns_all_or_nothing (L : Ledger) (e : String)
    (hfail : L.totalCampaigns = .error e ∨
      ∃ N k, L.totalCampaigns = .ok N ∧ k < N ∧
        (∀ j, j < k → ∃ d r, L.campaigns j = .ok d ∧ L.getTotalRaised j ZeroAddress = .ok r) ∧
        (L.campaigns k = .error e ∨
          ∃ d, L.campaigns k = .ok d ∧ L.getTotalRaised k ZeroAddress = .error e)) :
    (getCampaigns L).response = ⟨500, .error e⟩ := by
  rcases hfail with htotal | ⟨N, k, htotal, hk, hbefore, hat⟩
  · unfold getCampaigns
    simp [htotal]
  · have hloop := listLoop_fail L e N 0 [] [⟨.totalCampaigns, none⟩] k hk
      (fun j hj => by simpa using hbefore j hj) (by simpa using hat)
    unfold getCampaigns
    simp only [htotal]
    split
    · next e2 trace heq =>
      rw [heq] at hloop
      simp only [Except.error.injEq] at hloop
      rw [hloop]
    · next cs trace heq =>
      rw [heq] at hloop
      cases hloop

/-- Witness of C7: with three campaigns, a failing `getTotalRaised(1, ...)`
makes the listing a 500 that carries the message and not campaign 0. -/
theorem getCampaigns_all_or_nothing_witness :
    (getCampaigns brokenLedger).response = ⟨500, .error "call revert exception"⟩ :=
  getCampaigns_all_or_nothing brokenLedger "call revert exception"
    (Or.inr ⟨3, 1, rfl, by decide,
      fun j hj => ⟨sampleData j, 0, rfl, by
        have : j = 0 := by omega
        subst this
        rfl⟩,
      Or.inr ⟨sampleData 1, rfl, rfl⟩⟩)

/-! ## Refund -/

/-- Past validation the refund handler submits exactly one transaction, whose
token argument is `token` when truthy and `ZeroAddress` otherwise. -/
theorem postRefund_transactions (L : Ledger) (body : Body)
    (h : ¬ (body.get "campaignId" = .undefined ∨ body.get "campaignId" = .null)) :
    (postRefund L body).transactions =
      [.refund (body.get "campaignId")
        (if (body.get "token").truthy then body.get "token" else .str ZeroAddress)] := by
  unfold postRefund Outcome.transactions
  simp only [h, if_false]
  split
  · simp [Call.isTransaction]
  · split <;> simp [Call.isTransaction]

/-- C8: with `campaignId` present, a refund request without `token` submits
exactly `refund(campaignId, ZeroAddress)`, the sentinel address string and
neither `undefined` nor `null`; with `token` a non-empty address string `t`
it submits exactly `refund(campaignId, t)`. -/
theorem postRefund_token_default (L : Ledger) (body : Body)
    (hid : body.get "campaignId" ≠ .undefined ∧ body.get "campaignId" ≠ .null) :
    (body.get "token" = .undefined →
      (postRefund L body).transactions =
        [.refund (body.get "campaignId")
          (.str "0x0000000000000000000000000000000000000000")]) ∧
    (∀ t : String, t ≠ "" → body.get "token" = .str t →
      (postRefund L body).transactions = [.refund (body.get "campaignId") (.str t)]) := by
  have hv : ¬ (body.get "campaignId" = .undefined ∨ body.get "campaignId" = .null) := by
    rintro (h | h)
    · exact hid.1 h
    · exact hid.2 h
  rw [postRefund_transactions L body hv]
  constructor
  · intro ht
    simp [ht, JsValue.truthy, ZeroAddress]
  · intro t hne ht
    simp [ht, JsValue.truthy, hne]

/-- Witness of C8: `{ campaignId: 0 }` submits `refund(0, ZeroAddress)`, and
with the token `"0xT"` it submits `refund(0, "0xT")`. -/
theorem postRefund_token_default_witness :
    (postRefund okLedger refundBody).transactions =
        [.refund (.num 0) (.str "0x0000000000000000000000000000000000000000")] ∧
      (postRefund okLedger tokenRefundBody).transactions =
        [.refund (.num 0) (.str "0xT")] :=
  ⟨(postRefund_token_default okLedger refundBody (by decide)).1 (by decide),
    (postRefund_token_default okLedger tokenRefundBody (by decide)).2 "0xT" (by decide)
      (by decide)⟩

/-! ## A falsy token -/

/-- Reading a key other than `token` skips a leading `token` property. -/
theorem Body.get_token_cons (v : JsValue) (rest : Body) (key : String) (h : key ≠ "token") :
    Body.get (("token", v) :: rest) key = Body.get rest key := by
  unfold Body.get
  have : (key == "token") = false := by simpa using h
  simp [List.lookup, this]

/-- C10: giving a request without `token` a `token` property that is `""`,
`0`, `false` or `null` changes neither the response nor the interactions of
the contribute and refund handlers; past validation the transaction is
`contributeETH(campaignId, { value: amount })`, and
`refund(campaignId, ZeroAddress)`. -/
theorem falsy_token_as_absent (L : Ledger) (rest : Body) (v : JsValue)
    (hrest : rest.get "token" = .undefined)
    (hv : v = .str "" ∨ v = .num 0 ∨ v = .bool false ∨ v = .null) :
    postContribute L (("token", v) :: rest) = postContribute L rest ∧
    postRefund L (("token", v) :: rest) = postRefund L rest ∧
    (¬ (rest.get "campaignId" = .undefined ∨ rest.get "campaignId" = .null ∨
        rest.get "amount" = .undefined) →
      (postContribute L (("token", v) :: rest)).transactions =
        [.contributeETH (rest.get "campaignId") (rest.get "amount")]) ∧
    (¬ (rest.get "campaignId" = .undefined ∨ rest.get "campaignId" = .null) →
      (postRefund L (("token", v) :: rest)).transactions =
        [.refund (rest.get "campaignId") (.str ZeroAddress)]) := by
  have hfalsy : v.truthy = false := by
    rcases hv with rfl | rfl | rfl | rfl <;> rfl
  have hid : Body.get (("token", v) :: rest) "campaignId" = rest.get "campaignId" :=
    Body.get_token_cons v rest _ (by decide)
  have hamount : Body.get (("token", v) :: rest) "amount" = rest.get "amount" :=
    Body.get_token_cons v rest _ (by decide)
  have htoken : Body.get (("token", v) :: rest) "token" = v := by
    simp [Body.get, List.lookup]
  have hundef : JsValue.undefined.truthy = false := rfl
  have hc : postContribute L (("token", v) :: rest) = postContribute L rest := by
    unfold postContribute
    simp only [hid, hamount, htoken, hrest, hfalsy, hundef, Bool.false_eq_true, if_false]
  have hr : postRefund L (("token", v) :: rest) = postRefund L rest := by
    unfold postRefund
    simp only [hid, htoken, hrest, hfalsy, hundef, Bool.false_eq_true, if_false]
  refine ⟨hc, hr, ?_, ?_⟩
  · intro hvalid
    rw [hc, postContribute_transactions L rest hvalid]
    simp [hrest, JsValue.truthy]
  · intro hvalid
    rw [hr, postRefund_transactions L rest hvalid]
    simp [hrest, JsValue.truthy]

/-- Witness of C10: a contribution with `token: ""` and one without `token`
have the same outcome. -/
theorem falsy_token_as_absent_witness :
    postContribute okLedger (("token", .str "") :: nativeBody) =
      postContribute okLedger nativeBody :=
  (falsy_token_as_absent okLedger nativeBody (.str "") (by decide) (Or.inl rfl)).1

/-! ## Error mapping -/

/-- When the loop succeeds, every read of its `n` indices from `i` on
succeeded. -/
theorem listLoop_ok_reads (L : Ledger) :
    ∀ (n i : Nat) (acc : List CampaignView) (tr : List Interaction)
      (cs : List CampaignView) (t : List Interaction),
      listLoop L n i acc tr = (.ok cs, t) →
      ∀ j, j < n → ∃ d r, L.campaigns (i + j) = .ok d ∧
        L.getTotalRaised (i + j) ZeroAddress = .ok r := by
  intro n
  induction n with
  | zero => intro i acc tr cs t _ j hj; omega
  | succ n ih =>
    intro i acc tr cs t h j hj
    cases hc : L.campaigns i with
    | error e1 => simp [listLoop, hc] at h
    | ok d =>
      cases hr : L.getTotalRaised i ZeroAddress with
      | error e1 => simp [listLoop, hc, hr] at h
      | ok r =>
        simp only [listLoop, hc, hr] at h
        cases j with
        | zero => exact ⟨d, r, by simpa using hc, by simpa using hr⟩
        | succ j =>
          have := ih (i + 1) _ _ cs t h j (by omega)
          rwa [show i + 1 + j = i + (j + 1) by omega] at this

/-- C9: in each of the five handlers a failing contract call is answered 500
with the body `{ error }` holding the message `e` of the failure, unchanged:
for the listing, when `totalCampaigns()` fails with `e` or the first failing
read is `campaigns(k)` or `getTotalRaised(k, ZeroAddress)` with `e`; for
create, contribute, refund and withdraw, when validation has passed and the
contract method rejects with `e`, or resolves to a transaction whose `wait()`
rejects with `e`. The status is 400 exactly when the validation of the handler
fails (never for the listing), and a 200 response is sent only when every
contract call of the request succeeded. -/
theorem uniform_error_mapping (L : Ledger) (body : Body) (e : String) :
    (((L.totalCampaigns = .error e ∨
          ∃ N k, L.totalCampaigns = .ok N ∧ k < N ∧
            (∀ j, j < k →
              ∃ d r, L.campaigns j = .ok d ∧ L.getTotalRaised j ZeroAddress = .ok r) ∧
            (L.campaigns k = .error e ∨
              ∃ d, L.campaigns k = .ok d ∧ L.getTotalRaised k ZeroAddress = .error e)) →
        (getCampaigns L).response = ⟨500, .error e⟩) ∧
      (getCampaigns L).response.status ≠ 400 ∧
      ((getCampaigns L).response.status = 200 →
        ∃ N, L.totalCampaigns = .ok N ∧
          ∀ i, i < N →
            ∃ d r, L.campaigns i = .ok d ∧ L.getTotalRaised i ZeroAddress = .ok r)) ∧
    (((postCampaigns L body).response.status = 400 ↔
        ((body.get "goalAmount").truthy = false ∨ (body.get "deadline").truthy = false ∨
          (body.get "title").truthy = false ∨ (body.get "description").truthy = false)) ∧
      (¬ ((body.get "goalAmount").truthy = false ∨ (body.get "deadline").truthy = false ∨
          (body.get "title").truthy = false ∨ (body.get "description").truthy = false) →
        (L.createCampaign (body.get "goalAmount") (body.get "deadline") (body.get "title")
            (body.get "description") = .error e ∨
          ∃ tx, L.createCampaign (body.get "goalAmount") (body.get "deadline")
            (body.get "title") (body.get "description") = .ok tx ∧ tx.wait = .error e) →
        (postCampaigns L body).response = ⟨500, .error e⟩) ∧
      ((postCampaigns L body).response.status = 200 →
        ∃ tx receipt, L.createCampaign (body.get "goalAmount") (body.get "deadline")
          (body.get "title") (body.get "description") = .ok tx ∧ tx.wait = .ok receipt)) ∧
    (((postContribute L body).response.status = 400 ↔
        (body.get "campaignId" = .undefined ∨ body.get "campaignId" = .null ∨
          body.get "amount" = .undefined)) ∧
      (¬ (body.get "campaignId" = .undefined ∨ body.get "campaignId" = .null ∨
          body.get "amount" = .undefined) →
        ((if (body.get "token").truthy then
              L.contributeToken (body.get "campaignId") (body.get "token") (body.get "amount")
            else L.contributeETH (body.get "campaignId") (body.get "amount")) = .error e ∨
          ∃ tx, (if (body.get "token").truthy then
              L.contributeToken (body.get "campaignId") (body.get "token") (body.get "amount")
            else L.contributeETH (body.get "campaignId") (body.get "amount")) = .ok tx ∧
            tx.wait = .error e) →
        (postContribute L body).response = ⟨500, .error e⟩) ∧
      ((postContribute L body).response.status = 200 →
        ∃ tx receipt, (if (body.get "token").truthy then
            L.contributeToken (body.get "campaignId") (body.get "token") (body.get "amount")
          else L.contributeETH (body.get "campaignId") (body.get "amount")) = .ok tx ∧
          tx.wait = .ok receipt)) ∧
    (((postRefund L body).response.status = 400 ↔
        (body.get "campaignId" = .undefined ∨ body.get "campaignId" = .null)) ∧
      (¬ (body.get "campaignId" = .undefined ∨ body.get "campaignId" = .null) →
        (L.refund (body.get "campaignId")
            (if (body.get "token").truthy then body.get "token" else .str ZeroAddress) =
              .error e ∨
          ∃ tx, L.refund (body.get "campaignId")
            (if (body.get "token").truthy then body.get "token" else .str ZeroAddress) =
              .ok tx ∧ tx.wait = .error e) →
        (postRefund L body).response = ⟨500, .error e⟩) ∧
      ((postRefund L body).response.status = 200 →
        ∃ tx receipt, L.refund (body.get "campaignId")
          (if (body.get "token").truthy then body.get "token" else .str ZeroAddress) =
            .ok tx ∧ tx.wait = .ok receipt)) ∧
    (((postWithdraw L body).response.status = 400 ↔
        (body.get "campaignId" = .undefined ∨ body.get "campaignId" = .null)) ∧
      (¬ (body.get "campaignId" = .undefined ∨ body.get "campaignId" = .null) →
        (L.withdraw (body.get "campaignId") = .error e ∨
          ∃ tx, L.withdraw (body.get "campaignId") = .ok tx ∧ tx.wait = .error e) →
        (postWithdraw L body).response = ⟨500, .error e⟩) ∧
      ((postWithdraw L body).response.status = 200 →
        ∃ tx receipt, L.withdraw (body.get "campaignId") = .ok tx ∧
          tx.wait = .ok receipt)) := by
  refine ⟨⟨?_, ?_, ?_⟩, ⟨postCampaigns_status_400_iff L body, ?_, ?_⟩,
    ⟨postContribute_status_400_iff L body, ?_, ?_⟩, ⟨?_, ?_, ?_⟩, ⟨?_, ?_, ?_⟩⟩
  · -- listing: a failing read
    rintro (htotal | ⟨N, k, htotal, hk, hbefore, hat⟩)
    · unfold getCampaigns
      simp [htotal]
    · have hloop := listLoop_fail L e N 0 [] [⟨.totalCampaigns, none⟩] k hk
        (fun j hj => by simpa using hbefore j hj) (by simpa using hat)
      unfold getCampaigns
      simp only [htotal]
      split
      · next e2 trace heq =>
        rw [heq] at hloop
        simp only [Except.error.injEq] at hloop
        rw [hloop]
      · next cs trace heq =>
        rw [heq] at hloop
        cases hloop
  · -- listing: never 400
    unfold getCampaigns
    split
    · simp
    · split <;> simp
  · -- listing: 200 only when every read succeeded
    intro h200
    unfold getCampaigns at h200
    cases htotal : L.totalCampaigns with
    | error e1 => simp [htotal] at h200
    | ok N =>
      refine ⟨N, rfl, ?_⟩
      cases hloop : listLoop L N 0 [] [⟨.totalCampaigns, none⟩] with
      | mk r t =>
        cases r with
        | error e1 => simp [htotal, hloop] at h200
        | ok cs =>
          intro i hi
          simpa using listLoop_ok_reads L N 0 _ _ cs t hloop i hi
  · -- create: a failing submission or confirmation
    intro hvalid hfail
    simp only [not_or, Bool.not_eq_false] at hvalid
    unfold postCampaigns
    simp only [hvalid.1, hvalid.2.1, hvalid.2.2.1, hvalid.2.2.2]
    simp only [Bool.not_true, Bool.or_self, Bool.false_eq_true, if_false]
    rcases hfail with hs | ⟨tx, hs, hw⟩
    · simp [hs]
    · simp [hs, hw]
  · -- create: 200 only after a confirmed transaction
    intro h200
    unfold postCampaigns at h200
    dsimp only at h200
    split at h200
    · simp at h200
    · cases hs : L.createCampaign (body.get "goalAmount") (body.get "deadline")
          (body.get "title") (body.get "description") with
      | error e1 => simp [hs] at h200
      | ok tx =>
        cases hw : tx.wait with
        | error e1 => simp [hs, hw] at h200
        | ok receipt => exact ⟨tx, receipt, rfl, hw⟩
  · -- contribute: a failing submission or confirmation
    intro hvalid hfail
    unfold postContribute
    simp only [hvalid, if_false]
    by_cases ht : (body.get "token").truthy = true
    · simp only [ht, if_true] at hfail ⊢
      rcases hfail with hs | ⟨tx, hs, hw⟩
      · simp [hs]
      · simp [hs, hw]
    · simp only [ht, Bool.false_eq_true, if_false] at hfail ⊢
      rcases hfail with hs | ⟨tx, hs, hw⟩
      · simp [hs]
      · simp [hs, hw]
  · -- contribute: 200 only after a confirmed transaction
    intro h200
    unfold postContribute at h200
    dsimp only at h200
    split at h200
    · simp at h200
    · by_cases ht : (body.get "token").truthy = true
      · simp only [ht, if_true] at h200 ⊢
        cases hs : L.contributeToken (body.get "campaignId") (body.get "token")
            (body.get "amount") with
        | error e1 => simp [hs] at h200
        | ok tx =>
          cases hw : tx.wait with
          | error e1 => simp [hs, hw] at h200
          | ok receipt => exact ⟨tx, receipt, rfl, hw⟩
      · simp only [ht, Bool.false_eq_true, if_false] at h200 ⊢
        cases hs : L.contributeETH (body.get "campaignId") (body.get "amount") with
        | error e1 => simp [hs] at h200
        | ok tx =>
          cases hw : tx.wait with
          | error e1 => simp [hs, hw] at h200
          | ok receipt => exact ⟨tx, receipt, rfl, hw⟩
  · -- refund: 400 exactly on a validation failure
    unfold postRefund
    by_cases h : body.get "campaignId" = .undefined ∨ body.get "campaignId" = .null
    · simp [h]
    · simp only [h, if_false, iff_false]
      split
      · simp
      · split <;> simp
  · -- refund: a failing submission or confirmation
    intro hvalid hfail
    unfold postRefund
    simp only [hvalid, if_false]
    rcases hfail with hs | ⟨tx, hs, hw⟩
    · simp [hs]
    · simp [hs, hw]
  · -- refund: 200 only after a confirmed transaction
    intro h200
    unfold postRefund at h200
    dsimp only at h200
    split at h200
    · simp at h200
    · cases hs : L.refund (body.get "campaignId")
          (if (body.get "token").truthy then body.get "token" else .str ZeroAddress) with
      | error e1 => simp [hs] at h200
      | ok tx =>
        cases hw : tx.wait with
        | error e1 => simp [hs, hw] at h200
        | ok receipt => exact ⟨tx, receipt, rfl, hw⟩
  · -- withdraw: 400 exactly on a validation failure
    unfold postWithdraw
    by_cases h : body.get "campaignId" = .undefined ∨ body.get "campaignId" = .null
    · simp [h]
    · simp only [h, if_false, iff_false]
      split
      · simp
      · split <;> simp
  · -- withdraw: a failing submission or confirmation
    intro hvalid hfail
    unfold postWithdraw
    simp only [hvalid, if_false]
    rcases hfail with hs | ⟨tx, hs, hw⟩
    · simp [hs]
    · simp [hs, hw]
  · -- withdraw: 200 only after a confirmed transaction
    intro h200
    unfold postWithdraw at h200
    dsimp only at h200
    split at h200
    · simp at h200
    · cases hs : L.withdraw (body.get "campaignId") with
      | error e1 => simp [hs] at h200
      | ok tx =>
        cases hw : tx.wait with
        | error e1 => simp [hs, hw] at h200
        | ok receipt => exact ⟨tx, receipt, rfl, hw⟩

/-- Witness of C9: a withdrawal whose confirmation wait rejects with
`"transaction execution reverted"` is answered 500 with that message. -/
theorem uniform_error_mapping_witness :
    (postWithdraw revertingLedger refundBody).response =
      ⟨500, .error "transaction execution reverted"⟩ :=
  (uniform_error_mapping revertingLedger refundBody
    "transaction execution reverted").2.2.2.2.2.1 (by decide)
    (Or.inr ⟨⟨"0x123", .error "transaction execution reverted"⟩, rfl, rfl⟩)

end Crowdy
